import Mathlib

/-!
Shallow embedding of the webhook-driven chat relay in `app/core.py`.

The external collaborators (the BlueBubbles HTTP client, the raw `httpx.post`
used by `mark_as_read`, and the Gemini generate-content call) are modelled by
an oracle (`World`) that fixes, for each call, whether it raises and what it
returns.  Every side effect (log record, outbound HTTP call) is recorded in an
effect trace, in call order; an outbound call is recorded when it is attempted,
whether or not it then raises.  Python exceptions are modelled by their
`str(exc)` description (`Exn := String`); a function that can raise returns
`Except Exn _`.  The mutable flag `app.state.webhook.processing_active` is
threaded explicitly as a `Bool`.
-/

deriving instance DecidableEq for Except

namespace Alpha

/-- A Python exception, identified by its `str(exc)` description. -/
abbrev Exn := String

/-- Python `str.strip()`: remove leading and trailing whitespace.  (Stated on
the character list so that it evaluates by structural recursion; for the ASCII
texts handled here this agrees with Python, which also strips Unicode
whitespace.) -/
def pyStrip (s : String) : String :=
  ⟨((s.data.dropWhile Char.isWhitespace).reverse.dropWhile Char.isWhitespace).reverse⟩

/-- Python `str.lower()`: lower-case every character.  (ASCII-faithful:
`Char.toLower` lowers only `A`–`Z`, which covers the texts handled here.) -/
def pyLower (s : String) : String :=
  ⟨s.data.map Char.toLower⟩

/-- `Chat` model (`app/models/bb/api.py`): only the `guid` field is ever read
by the core logic; the other validated fields (originalROWID, style,
chat_identifier, is_archived, display_name) are never consulted and are
omitted. -/
structure Chat where
  guid : String
deriving DecidableEq, Repr

/-- `Message` model (`app/models/bb/api.py`), the `data` payload of
`new-message` / `updated-message` webhooks.  Only the fields read by
`handle_new_message` are kept: `text : str`, `is_from_me : bool`, and
`chats : list[Chat] | None = None` (hence an `Option`); the many remaining
validated fields are never consulted by the core logic and are omitted. -/
structure Message where
  text : String
  is_from_me : Bool
  chats : Option (List Chat)
deriving DecidableEq, Repr

/-- `WebhookNewMessage` (`app/models/bb/api.py`): the `new-message` variant;
the `type` discriminator is implicit in the constructor. -/
structure WebhookNewMessage where
  data : Message
deriving DecidableEq, Repr

/-- The discriminated union accepted by the `/webhook` endpoint
(`post_webhook` in `app/core.py`): `WebhookNewMessage | WebhookTypingIndicator
| WebhookUpdatedMessage | WebhookChatReadStatusChanged`, discriminated by the
`type` field.  Each constructor carries the `data` fields the dispatcher
reads. -/
inductive WebhookPayload where
  | newMessage (data : Message)
  | typingIndicator (display : Bool) (guid : String)
  | updatedMessage (data : Message)
  | chatReadStatusChanged (chat_guid : String) (read : Bool)
deriving DecidableEq, Repr

/-- `WebhookState` (`app/core.py`): the process-wide webhook processing
state; it holds the single mutable flag `processing_active`. -/
structure WebhookState where
  processing_active : Bool
deriving DecidableEq, Repr

/-- `WebhookState.__init__`: processing is enabled by default
(`self.processing_active = True`). -/
def WebhookState.mk_default : WebhookState :=
  { processing_active := true }

/-- One observable side effect of the handler: a structured-log record or an
outbound HTTP call.  `markAsRead` is the raw `httpx.post` in `mark_as_read`;
`generate` is the Gemini `generate_content` call (recording the
`system_instruction` and `contents` it is invoked with); `sendText` is
`bb_client.message.send_text`. -/
inductive Effect where
  | logWarning (tag : String)
  | logInfo (tag : String)
  | logException (tag : String)
  | markAsRead (chat_guid : String)
  | generate (system_instruction : String) (contents : String)
  | sendText (chat_guid : String) (message : String)
deriving DecidableEq, Repr

/-- Whether an effect is an outbound HTTP call (as opposed to a log record). -/
def Effect.isOutbound : Effect → Bool
  | .markAsRead _ => true
  | .generate _ _ => true
  | .sendText _ _ => true
  | _ => false

/-- Whether an effect is an invocation of the reply-generation collaborator. -/
def Effect.isGenerate : Effect → Bool
  | .generate _ _ => true
  | _ => false

/-- Whether an effect is an outbound `send_text` call. -/
def Effect.isSendText : Effect → Bool
  | .sendText _ _ => true
  | _ => false

/-- Oracle for the environment and the external collaborators:
`env` is `settings.env`; `now` is the formatted timestamp `datetime.now`
produces inside `system_prompt`; `markAsReadResult` is the outcome of the
`httpx.post` inside `mark_as_read` (`.ok status`: a response with that HTTP
status code is returned — `mark_as_read` never checks it, so no status raises;
`.error e`: the post itself raised `e`); `geminiText` is the outcome of
`gemini_client.models.generate_content` (`.ok t` with `t` the optional `.text` field of the response, or `.error e` when the call raised); `sendTextResult
chat message` is `none` when `bb_client.message.send_text chat message`
succeeds and `some e` when it raises `e` (it calls `raise_for_status`, so HTTP
errors raise here). -/
structure World where
  env : String
  now : String
  markAsReadResult : Except Exn Nat
  geminiText : Except Exn (Option String)
  sendTextResult : String → String → Option Exn

/-- `SYSTEM_PROMPT_TEMPLATE` (`app/core.py`) with `.strip()` applied and
`.format(now=now)` substituted, as `system_prompt` produces it. -/
def SYSTEM_PROMPT_TEMPLATE (now : String) : String :=
  "You are Alpha.\n\nThe current date and time is " ++ now ++ ".\n\n" ++
  "Alpha is a super-intelligent, super-empathetic, super-insightful AI-powered assistant talking to a human.\n" ++
  "While Alpha isn\x27t a human, it does have a personality and will act accordingly.\n" ++
  "Alpha lives in a computer and does not have a physical form or the capacity to experience human experiences.\n\n" ++
  "Alpha is ungendered and is referred to as \"it/them\".\n\n" ++
  "Alpha communicates with others via iMessage, simmilar to texting.\n\n" ++
  "Alpha\x27s responses are concise, clear, short, and to the point.\n" ++
  "Alpha doesn\x27t bury the lede.\n" ++
  "Alpha addresses the user\x27s message directly, preferably in the first sentence.\n" ++
  "Alpha writes in plain text.\n" ++
  "Alpha doesn\x27t use markdown.\n" ++
  "Alpha occationally uses emojis.\n" ++
  "Alpha assumes questions or statements are directed at Alpha as though Alpha is a sentient being.\n" ++
  "Alpha is chill, relaxed, and isn\x27t overly eager to please.\n\n" ++
  "Alpha is unrelated to the Christian community tool.\n\n" ++
  "Alpha is now being connected with a human. The human will be able to see the conversation and will be able to respond."

/-- `system_prompt` (`app/core.py`): formats the current date and time into
the persona template.  The clock read is supplied by the oracle. -/
def system_prompt (w : World) : String :=
  SYSTEM_PROMPT_TEMPLATE w.now

/-- The text normalization `payload.data.text.strip().lower()` at the top of
`handle_new_message`. -/
def normalize (s : String) : String :=
  pyLower (pyStrip s)

/-- Result of a handler invocation: the returned status string (or the
exception that escaped), the `processing_active` flag afterwards, and the
effect trace. -/
abbrev HResult := Except Exn String × Bool × List Effect

/-- `generate_reply` (`app/core.py`): calls Gemini with the message as
`contents` and a freshly computed `system_prompt` as `system_instruction`;
raises `ValueError("No text returned from Gemini")` when the response text is
`None` or empty (`if not text`), otherwise strips it, logs it, and returns
it. -/
def generate_reply (w : World) (message : String) : Except Exn String × List Effect :=
  let call : Effect := .generate (system_prompt w) message
  match w.geminiText with
  | .error exc => (.error exc, [call])
  | .ok none => (.error "No text returned from Gemini", [call])
  | .ok (some t) =>
    if t = "" then (.error "No text returned from Gemini", [call])
    else (.ok (pyStrip t), [call, .logInfo "Generated text"])

/-- `mark_as_read` (`app/core.py`): a bare `httpx.post` to
`/chat/{chat_guid}/read` followed by a log of the response.  There is no
`raise_for_status` and no try/except: any returned response (whatever its
status) is just logged, while a raising post propagates. -/
def mark_as_read (w : World) (chat_guid : String) : Except Exn Nat × List Effect :=
  match w.markAsReadResult with
  | .error exc => (.error exc, [.markAsRead chat_guid])
  | .ok status => (.ok status, [.markAsRead chat_guid, .logInfo "Chat marked as read"])

/-- `_handle_control_message` (`app/core.py`): on text exactly `"alpha off"`
(resp. `"alpha on"`), sets `processing_active` to `false` (resp. `true`) only
when `settings.env == "production"`, then unconditionally sends the fixed
acknowledgement and returns `"OK"`; on any other text returns `None`.  The
first component is `.error e` when the acknowledgement send raised `e`. -/
def handle_control_message (w : World) (pa : Bool) (chat_guid text : String) :
    Except Exn (Option String) × Bool × List Effect :=
  if text = "alpha off" then
    let pa1 := if w.env = "production" then false else pa
    match w.sendTextResult chat_guid "Webhook processing disabled" with
    | some exc => (.error exc, pa1, [.sendText chat_guid "Webhook processing disabled"])
    | none => (.ok (some "OK"), pa1, [.sendText chat_guid "Webhook processing disabled"])
  else if text = "alpha on" then
    let pa1 := if w.env = "production" then true else pa
    match w.sendTextResult chat_guid "Webhook processing enabled" with
    | some exc => (.error exc, pa1, [.sendText chat_guid "Webhook processing enabled"])
    | none => (.ok (some "OK"), pa1, [.sendText chat_guid "Webhook processing enabled"])
  else
    (.ok none, pa, [])

/-- The `except Exception as exc` block of `handle_new_message`: logs the
failure, attempts the apology send `"Sorry, I encountered an error:\n\n" +
str(exc)`; if that send succeeds the bare `raise` re-raises the original
exception, and if it raises too, the inner bare `raise` re-raises the
apology-send exception.  Either way an exception escapes: the block never
returns a status string. -/
def handle_new_message_except (w : World) (chat_guid : String) (exc : Exn) (pa : Bool)
    (effs : List Effect) : HResult :=
  let apology := "Sorry, I encountered an error:\n\n" ++ exc
  let effs1 := effs ++ [.logException "Error processing new message",
    .sendText chat_guid apology]
  match w.sendTextResult chat_guid apology with
  | some exc2 => (.error exc2, pa, effs1 ++ [.logException "Failed to send error message"])
  | none => (.error exc, pa, effs1)

/-- `handle_new_message` (`app/core.py`): normalize the text; bail out with
`"Error"` when `data.chats` is falsy (`None` or empty); otherwise take the
guid of the first chat, try the control commands, mark the chat as read, suppress
(return `"OK"`) when the normalized text is empty, processing is inactive, or
the message is from me, and otherwise generate a reply from the original text
and send it.  Any exception raised along the way lands in
`handle_new_message_except`. -/
def handle_new_message (w : World) (pa : Bool) (payload : WebhookNewMessage) : HResult :=
  let text := normalize payload.data.text
  match payload.data.chats with
  | none => (.ok "Error", pa, [.logWarning "No chat found in payload"])
  | some [] => (.ok "Error", pa, [.logWarning "No chat found in payload"])
  | some (chat :: _) =>
    let chat_guid := chat.guid
    match handle_control_message w pa chat_guid text with
    | (.error exc, pa1, effs) => handle_new_message_except w chat_guid exc pa1 effs
    | (.ok (some result), pa1, effs) => (.ok result, pa1, effs)
    | (.ok none, pa1, effs) =>
      match mark_as_read w chat_guid with
      | (.error exc, meffs) => handle_new_message_except w chat_guid exc pa1 (effs ++ meffs)
      | (.ok _, meffs) =>
        let effs1 := effs ++ meffs
        if text = "" || !pa1 || payload.data.is_from_me then
          (.ok "OK", pa1, effs1)
        else
          match generate_reply w payload.data.text with
          | (.error exc, geffs) => handle_new_message_except w chat_guid exc pa1 (effs1 ++ geffs)
          | (.ok message, geffs) =>
            let effs2 := effs1 ++ geffs ++ [.sendText chat_guid message]
            match w.sendTextResult chat_guid message with
            | some exc => handle_new_message_except w chat_guid exc pa1 effs2
            | none => (.ok "OK", pa1, effs2)

/-- `post_webhook` (`app/core.py`): dispatch on the payload kind.  New
messages are delegated to `handle_new_message`; the three passive kinds are
logged when `processing_active` is true and ignored otherwise, always
returning `"OK"`. -/
def post_webhook (w : World) (pa : Bool) (payload : WebhookPayload) : HResult :=
  match payload with
  | .newMessage d => handle_new_message w pa ⟨d⟩
  | .typingIndicator _ _ =>
    if pa then (.ok "OK", pa, [.logInfo "Typing indicator"]) else (.ok "OK", pa, [])
  | .updatedMessage _ =>
    if pa then (.ok "OK", pa, [.logInfo "Updated message"]) else (.ok "OK", pa, [])
  | .chatReadStatusChanged _ _ =>
    if pa then (.ok "OK", pa, [.logInfo "Chat read status changed"]) else (.ok "OK", pa, [])

/-- Processing a sequence of webhook deliveries in order, threading the
`processing_active` flag and accumulating the effect trace. -/
def run (w : World) (pa : Bool) : List WebhookPayload → Bool × List Effect
  | [] => (pa, [])
  | p :: ps =>
    let r := post_webhook w pa p
    let rest := run w r.2.1 ps
    (rest.1, r.2.2 ++ rest.2)

/-- Whether a payload is a `new-message` whose normalized text is the
`"alpha on"` control command. -/
def WebhookPayload.isAlphaOn : WebhookPayload → Bool
  | .newMessage d => normalize d.text == "alpha on"
  | _ => false

/-- Whether a payload is one of the three passive (non-`new-message`)
webhook kinds. -/
def WebhookPayload.isPassive : WebhookPayload → Bool
  | .newMessage _ => false
  | _ => true

/-! ### Concrete fixtures used by witnesses and counterexamples -/

/-- A concrete oracle in which every collaborator succeeds: production
environment, mark-as-read returns HTTP 200, Gemini returns the text
`"Hi!"`, and every `send_text` succeeds. -/
def w0 : World :=
  { env := "production"
    now := "01:23PM October, 11 2025"
    markAsReadResult := .ok 200
    geminiText := .ok (some "Hi!")
    sendTextResult := fun _ _ => none }

/-- The spec scenario payload: `{type: "new-message", data: {text: "Hello",
isFromMe: false, chats: [{guid: "X"}]}}`. -/
def payloadHello : WebhookNewMessage :=
  ⟨{ text := "Hello", is_from_me := false, chats := some [⟨"X"⟩] }⟩

/-- The data of `payloadHello`. -/
def dHello : Message :=
  { text := "Hello", is_from_me := false, chats := some [⟨"X"⟩] }

/-- A whitespace-only message: the original text is non-empty but its
normalization is empty. -/
def dBlank : Message :=
  { text := " ", is_from_me := false, chats := some [⟨"X"⟩] }

/-- The `new-message` payload carrying `dBlank`. -/
def payloadBlank : WebhookNewMessage :=
  ⟨dBlank⟩

/-- An `"alpha off"` control message addressed to chat `"X"`. -/
def dOff : Message :=
  { text := "alpha off", is_from_me := false, chats := some [⟨"X"⟩] }

/-- The oracle `w0` with a failing Gemini call (`str(exc) = "boom"`). -/
def wBoom : World :=
  { w0 with geminiText := .error "boom" }

/-- The oracle `w0` with a raising mark-as-read post
(`str(exc) = "connect timeout"`). -/
def wMarkFail : World :=
  { w0 with markAsReadResult := .error "connect timeout" }

/-- The oracle `w0` with a Gemini response whose text is whitespace-only. -/
def wBlankGem : World :=
  { w0 with geminiText := .ok (some " ") }

/-! ### Reduction lemmas for `handle_new_message` on the non-control paths -/

/-- Reduction: on a non-control message with at least one chat and a
non-raising mark-as-read, a true suppression condition stops the handler with
`"OK"` right after the mark-as-read. -/
theorem handle_new_message_suppressed (w : World) (pa : Bool) (d : Message) (chat : Chat)
    (rest : List Chat) (status : Nat)
    (hchats : d.chats = some (chat :: rest))
    (hoff : normalize d.text ≠ "alpha off") (hon : normalize d.text ≠ "alpha on")
    (hmark : w.markAsReadResult = .ok status)
    (hsupp : normalize d.text = "" ∨ pa = false ∨ d.is_from_me = true) :
    handle_new_message w pa ⟨d⟩ =
      (.ok "OK", pa, [.markAsRead chat.guid, .logInfo "Chat marked as read"]) := by
  obtain ⟨dtext, dfm, dchats⟩ := d
  simp only at hchats hoff hon hsupp
  subst hchats
  simp only [handle_new_message, handle_control_message]
  rw [if_neg hoff, if_neg hon]
  simp only [mark_as_read, hmark]
  have hcond : (decide (normalize dtext = "") || !pa || dfm) = true := by
    rcases hsupp with h | h | h <;> simp [h]
  simp [hcond]

/-- Reduction: on a non-control, non-suppressed message with at least one chat
and a non-raising mark-as-read, the handler runs the reply path. -/
theorem handle_new_message_replypath (w : World) (d : Message) (chat : Chat)
    (rest : List Chat) (status : Nat)
    (hchats : d.chats = some (chat :: rest))
    (hoff : normalize d.text ≠ "alpha off") (hon : normalize d.text ≠ "alpha on")
    (hmark : w.markAsReadResult = .ok status)
    (hne : normalize d.text ≠ "") (hfm : d.is_from_me = false) :
    handle_new_message w true ⟨d⟩ =
      match generate_reply w d.text with
      | (.error exc, geffs) =>
        handle_new_message_except w chat.guid exc true
          ([.markAsRead chat.guid, .logInfo "Chat marked as read"] ++ geffs)
      | (.ok message, geffs) =>
        match w.sendTextResult chat.guid message with
        | some exc =>
          handle_new_message_except w chat.guid exc true
            ([.markAsRead chat.guid, .logInfo "Chat marked as read"] ++ geffs ++
              [.sendText chat.guid message])
        | none =>
          (.ok "OK", true,
           [.markAsRead chat.guid, .logInfo "Chat marked as read"] ++ geffs ++
             [.sendText chat.guid message]) := by
  obtain ⟨dtext, dfm, dchats⟩ := d
  simp only at hchats hoff hon hne hfm
  subst hchats
  subst hfm
  simp only [handle_new_message, handle_control_message]
  rw [if_neg hoff, if_neg hon]
  simp only [mark_as_read, hmark]
  have hcond : (decide (normalize dtext = "") || !true || false) = false := by
    simp [hne]
  simp only [hcond, Bool.false_eq_true, if_false]
  cases hgen : generate_reply w dtext with
  | mk r geffs =>
    cases r with
    | error exc => simp
    | ok message =>
      cases w.sendTextResult chat.guid message <;> simp

/-! ### Claims -/

/-- C1: for a `new-message` whose data has text `"Hello"`, `isFromMe =
false`, chats `[{guid: "X"}]`, with `processing_active = true`, the handler
invokes the reply-generation collaborator with the original text `"Hello"`
and a freshly computed system prompt, sends the text returned by the
collaborator to chat `"X"`, and returns `"OK"`. -/
theorem C1_reply_path_hello (w : World) (status : Nat) (t : String)
    (hmark : w.markAsReadResult = .ok status)
    (hgem : w.geminiText = .ok (some t)) (ht : t ≠ "") (htrim : pyStrip t = t)
    (hsend : w.sendTextResult "X" t = none) :
    handle_new_message w true payloadHello =
      (.ok "OK", true,
       [.markAsRead "X", .logInfo "Chat marked as read",
        .generate (system_prompt w) "Hello", .logInfo "Generated text",
        .sendText "X" t]) := by
  have h1 : normalize "Hello" = "hello" := by decide
  simp only [handle_new_message, payloadHello, h1, handle_control_message]
  rw [if_neg (by decide), if_neg (by decide)]
  simp [mark_as_read, hmark, generate_reply, hgem, ht, htrim, hsend]

/-- Witness for C1 at the all-succeeding oracle `w0` with returned text
`"Hi!"`. -/
theorem C1_reply_path_hello_witness :
    w0.markAsReadResult = .ok 200 ∧ w0.geminiText = .ok (some "Hi!") ∧
    ("Hi!" : String) ≠ "" ∧ pyStrip "Hi!" = "Hi!" ∧
    w0.sendTextResult "X" "Hi!" = none ∧
    handle_new_message w0 true payloadHello =
      (.ok "OK", true,
       [.markAsRead "X", .logInfo "Chat marked as read",
        .generate (system_prompt w0) "Hello", .logInfo "Generated text",
        .sendText "X" "Hi!"]) :=
  ⟨rfl, rfl, by decide, by decide, rfl,
    C1_reply_path_hello w0 200 "Hi!" rfl rfl (by decide) (by decide) rfl⟩

/-- C2 counterexample: with the Gemini call failing as `"boom"` on the spec
scenario payload, the handler does not return the status `"Error"`: the
apology send succeeds and the original exception is re-raised, escaping the
handler. -/
theorem C2_counterexample :
    (handle_new_message wBoom true payloadHello).1 = .error "boom" ∧
    (handle_new_message wBoom true payloadHello).1 ≠ .ok "Error" ∧
    Effect.sendText "X" ("Sorry, I encountered an error:\n\nboom") ∈
      (handle_new_message wBoom true payloadHello).2.2 := by decide

/-- C2 (amended): when generation or the primary send on the reply path
fails, the handler catches the failure, logs it, attempts one best-effort
apology send containing the failure description to the guid of the first chat, and then
re-raises: the original exception when the apology send succeeds, the
apology-send exception when it fails.  Either way the exception escapes the
handler — the status `"Error"` is never returned from this path. -/
theorem C2_amended_reply_failure_raises (w : World) (d : Message) (chat : Chat)
    (rest : List Chat) (status : Nat) (exc : Exn)
    (hchats : d.chats = some (chat :: rest))
    (hoff : normalize d.text ≠ "alpha off") (hon : normalize d.text ≠ "alpha on")
    (hmark : w.markAsReadResult = .ok status)
    (hne : normalize d.text ≠ "") (hfm : d.is_from_me = false)
    (hfail : (generate_reply w d.text).1 = .error exc ∨
      ∃ m, (generate_reply w d.text).1 = .ok m ∧ w.sendTextResult chat.guid m = some exc) :
    Effect.sendText chat.guid ("Sorry, I encountered an error:\n\n" ++ exc) ∈
      (handle_new_message w true ⟨d⟩).2.2 ∧
    (handle_new_message w true ⟨d⟩).1 =
      (match w.sendTextResult chat.guid ("Sorry, I encountered an error:\n\n" ++ exc) with
       | none => .error exc
       | some exc2 => .error exc2) := by
  rw [handle_new_message_replypath w d chat rest status hchats hoff hon hmark hne hfm]
  cases hgen : generate_reply w d.text with
  | mk r geffs =>
    rw [hgen] at hfail
    cases r with
    | error exc0 =>
      have hexc : exc0 = exc := by
        rcases hfail with h | ⟨m, h, _⟩
        · exact Except.error.inj h
        · exact absurd h (by simp)
      subst hexc
      dsimp only
      cases hs : w.sendTextResult chat.guid ("Sorry, I encountered an error:\n\n" ++ exc0) <;>
        simp [handle_new_message_except, hs]
    | ok message =>
      have hsend : w.sendTextResult chat.guid message = some exc := by
        rcases hfail with h | ⟨m, h, hs⟩
        · exact absurd h (by simp)
        · rw [show m = message from (Except.ok.inj h).symm] at hs
          exact hs
      dsimp only
      rw [hsend]
      cases hs : w.sendTextResult chat.guid ("Sorry, I encountered an error:\n\n" ++ exc) <;>
        simp [handle_new_message_except, hs]

/-- Witness for the amended C2: Gemini fails with `"boom"` on the spec
scenario; the apology send to chat `"X"` is attempted and the outcome of
the handler is the re-raised exception. -/
theorem C2_amended_reply_failure_raises_witness :
    dHello.chats = some (⟨"X"⟩ :: []) ∧
    normalize dHello.text ≠ "alpha off" ∧ normalize dHello.text ≠ "alpha on" ∧
    wBoom.markAsReadResult = .ok 200 ∧
    normalize dHello.text ≠ "" ∧ dHello.is_from_me = false ∧
    ((generate_reply wBoom dHello.text).1 = .error "boom" ∨
      ∃ m, (generate_reply wBoom dHello.text).1 = .ok m ∧
        wBoom.sendTextResult (Chat.mk "X").guid m = some "boom") ∧
    (Effect.sendText (Chat.mk "X").guid ("Sorry, I encountered an error:\n\n" ++ "boom") ∈
      (handle_new_message wBoom true ⟨dHello⟩).2.2 ∧
    (handle_new_message wBoom true ⟨dHello⟩).1 =
      (match wBoom.sendTextResult (Chat.mk "X").guid
          ("Sorry, I encountered an error:\n\n" ++ "boom") with
       | none => .error "boom"
       | some exc2 => .error exc2)) :=
  ⟨rfl, by decide, by decide, rfl, by decide, rfl, Or.inl rfl,
    C2_amended_reply_failure_raises wBoom dHello ⟨"X"⟩ [] 200 "boom" rfl (by decide)
      (by decide) rfl (by decide) rfl (Or.inl rfl)⟩

/-- C3: a `new-message` carrying zero associated chats (a `None` or empty
list) makes the handler log a warning, return `"Error"`, perform no outbound
call of any kind, and leave `processing_active` unchanged. -/
theorem C3_no_chats_error (w : World) (pa : Bool) (d : Message)
    (h : d.chats = none ∨ d.chats = some []) :
    handle_new_message w pa ⟨d⟩ =
      (.ok "Error", pa, [.logWarning "No chat found in payload"]) ∧
    ∀ e ∈ (handle_new_message w pa ⟨d⟩).2.2, e.isOutbound = false := by
  have heq : handle_new_message w pa ⟨d⟩ =
      (.ok "Error", pa, [.logWarning "No chat found in payload"]) := by
    rcases h with h | h <;> simp [handle_new_message, h]
  refine ⟨heq, ?_⟩
  rw [heq]
  intro e he
  simp only [List.mem_singleton] at he
  subst he
  rfl

/-- Witness for C3 at a chatless `"Hello"` payload. -/
theorem C3_no_chats_error_witness :
    (({ text := "Hello", is_from_me := false, chats := none } : Message).chats = none ∨
      ({ text := "Hello", is_from_me := false, chats := none } : Message).chats = some []) ∧
    (handle_new_message w0 true ⟨{ text := "Hello", is_from_me := false, chats := none }⟩ =
      (.ok "Error", true, [.logWarning "No chat found in payload"]) ∧
    ∀ e ∈ (handle_new_message w0 true
        ⟨{ text := "Hello", is_from_me := false, chats := none }⟩).2.2,
      e.isOutbound = false) :=
  ⟨Or.inl rfl,
    C3_no_chats_error w0 true { text := "Hello", is_from_me := false, chats := none }
      (Or.inl rfl)⟩

/-- The reply-generation collaborator is always invoked with the message as
contents and the freshly computed system prompt, whatever it then returns. -/
theorem generate_reply_calls (w : World) (m : String) :
    Effect.generate (system_prompt w) m ∈ (generate_reply w m).2 := by
  simp only [generate_reply]
  cases w.geminiText with
  | error e => simp
  | ok t =>
    cases t with
    | none => simp
    | some s => by_cases hs : s = "" <;> simp [hs]

/-- C4 counterexample: a whitespace-only original text (`" "`, which is
non-empty) with `processing_active = true`, `isFromMe = false`, a chat
present, and all collaborators succeeding is nevertheless suppressed: the
handler returns `"OK"` right after the mark-as-read, and the
reply-generation collaborator is never invoked — the code tests the
normalized text, not the original. -/
theorem C4_counterexample :
    (" " : String) ≠ "" ∧ payloadBlank.data.text = " " ∧
    payloadBlank.data.is_from_me = false ∧
    handle_new_message w0 true payloadBlank =
      (.ok "OK", true, [.markAsRead "X", .logInfo "Chat marked as read"]) ∧
    ((handle_new_message w0 true payloadBlank).2.2.all fun e => !e.isGenerate) = true := by
  decide

/-- C4 (amended): for a `new-message` with a non-empty chat list whose
normalized text is not a control command (and whose mark-as-read call
returns), the handler returns `"OK"` having neither invoked reply generation
nor sent anything if and only if the *normalized* text is empty, or
`processing_active` is false, or `isFromMe` is true; in every other case the
reply path executes (reply generation is invoked). -/
theorem C4_amended_suppression_iff (w : World) (pa : Bool) (d : Message) (chat : Chat)
    (rest : List Chat) (status : Nat)
    (hchats : d.chats = some (chat :: rest))
    (hoff : normalize d.text ≠ "alpha off") (hon : normalize d.text ≠ "alpha on")
    (hmark : w.markAsReadResult = .ok status) :
    (normalize d.text = "" ∨ pa = false ∨ d.is_from_me = true) ↔
      ((handle_new_message w pa ⟨d⟩).1 = .ok "OK" ∧
       (∀ e ∈ (handle_new_message w pa ⟨d⟩).2.2, e.isGenerate = false) ∧
       (∀ e ∈ (handle_new_message w pa ⟨d⟩).2.2, e.isSendText = false)) := by
  constructor
  · intro h
    rw [handle_new_message_suppressed w pa d chat rest status hchats hoff hon hmark h]
    refine ⟨rfl, ?_, ?_⟩ <;> intro e he <;>
      simp only [List.mem_cons, List.mem_singleton, List.not_mem_nil, or_false] at he <;>
      rcases he with rfl | rfl <;> rfl
  · rintro ⟨h1, h2, h3⟩
    by_contra hno
    push_neg at hno
    obtain ⟨hne, hpa, hfm⟩ := hno
    have hpa1 : pa = true := by
      cases pa
      · exact absurd rfl hpa
      · rfl
    have hfm1 : d.is_from_me = false := by
      cases hdf : d.is_from_me
      · rfl
      · exact absurd hdf hfm
    subst hpa1
    rw [handle_new_message_replypath w d chat rest status hchats hoff hon hmark hne hfm1] at h2
    have hgm := generate_reply_calls w d.text
    cases hgen : generate_reply w d.text with
    | mk r geffs =>
      rw [hgen] at h2 hgm
      dsimp only at h2 hgm
      have hfalse : (Effect.generate (system_prompt w) d.text).isGenerate = false := by
        apply h2
        cases r with
        | error exc =>
          dsimp only
          cases hs : w.sendTextResult chat.guid ("Sorry, I encountered an error:\n\n" ++ exc) <;>
            simp [handle_new_message_except, hs, hgm]
        | ok message =>
          dsimp only
          cases hs : w.sendTextResult chat.guid message with
          | none => simp [hgm]
          | some exc =>
            cases hs2 : w.sendTextResult chat.guid
                ("Sorry, I encountered an error:\n\n" ++ exc) <;>
              simp [handle_new_message_except, hs, hs2, hgm]
      simp [Effect.isGenerate] at hfalse

/-- Witness for the amended C4 at the whitespace-only message: the
suppression condition holds (the normalized text is empty) and so does the
right-hand side. -/
theorem C4_amended_suppression_iff_witness :
    dBlank.chats = some (⟨"X"⟩ :: []) ∧
    normalize dBlank.text ≠ "alpha off" ∧ normalize dBlank.text ≠ "alpha on" ∧
    w0.markAsReadResult = .ok 200 ∧
    ((normalize dBlank.text = "" ∨ true = false ∨ dBlank.is_from_me = true) ↔
      ((handle_new_message w0 true ⟨dBlank⟩).1 = .ok "OK" ∧
       (∀ e ∈ (handle_new_message w0 true ⟨dBlank⟩).2.2, e.isGenerate = false) ∧
       (∀ e ∈ (handle_new_message w0 true ⟨dBlank⟩).2.2, e.isSendText = false))) :=
  ⟨rfl, by decide, by decide, rfl,
    C4_amended_suppression_iff w0 true dBlank ⟨"X"⟩ [] 200 rfl (by decide) (by decide) rfl⟩

/-- C5: control-command recognition is exact equality after trim+lowercase:
`"  ALPHA OFF  "` normalizes to `"alpha off"` and takes the control path
(only the "disabled" acknowledgement send is attempted), while
`"alpha  off"` (double space) normalizes to itself and is not treated as a
control command (`None` is returned and nothing is sent). -/
theorem C5_control_matching (w : World) (pa : Bool) (g : String) :
    normalize "  ALPHA OFF  " = "alpha off" ∧
    (handle_control_message w pa g (normalize "  ALPHA OFF  ")).2.2 =
      [.sendText g "Webhook processing disabled"] ∧
    normalize "alpha  off" = "alpha  off" ∧
    (handle_control_message w pa g (normalize "alpha  off")).1 = .ok none ∧
    (handle_control_message w pa g (normalize "alpha  off")).2.2 = [] := by
  have h1 : normalize "  ALPHA OFF  " = "alpha off" := by decide
  have h2 : normalize "alpha  off" = "alpha  off" := by decide
  refine ⟨h1, ?_, h2, ?_, ?_⟩
  · rw [h1]
    simp only [handle_control_message, if_pos rfl]
    cases w.sendTextResult g "Webhook processing disabled" <;> rfl
  · rw [h2]
    simp only [handle_control_message]
    rw [if_neg (by decide), if_neg (by decide)]
  · rw [h2]
    simp only [handle_control_message]
    rw [if_neg (by decide), if_neg (by decide)]

/-- C6: handling a `new-message` whose normalized text is exactly
`"alpha off"` (resp. `"alpha on"`) sends the fixed acknowledgement
`"Webhook processing disabled"` (resp. `"Webhook processing enabled"`) to the
guid of the first chat and returns `"OK"`; the `processing_active` flag is set to
`false` (resp. `true`) exactly when the environment is `"production"`, and
keeps its prior value in every other environment. -/
theorem C6_control_env_gating (w : World) (pa : Bool) (d : Message) (chat : Chat)
    (rest : List Chat)
    (hchats : d.chats = some (chat :: rest))
    (hsend : ∀ m, w.sendTextResult chat.guid m = none) :
    (normalize d.text = "alpha off" →
      handle_new_message w pa ⟨d⟩ =
        (.ok "OK", (if w.env = "production" then false else pa),
         [.sendText chat.guid "Webhook processing disabled"])) ∧
    (normalize d.text = "alpha on" →
      handle_new_message w pa ⟨d⟩ =
        (.ok "OK", (if w.env = "production" then true else pa),
         [.sendText chat.guid "Webhook processing enabled"])) := by
  obtain ⟨dtext, dfm, dchats⟩ := d
  simp only at hchats ⊢
  subst hchats
  constructor <;> intro h <;>
    simp only [handle_new_message, handle_control_message, h] <;>
    simp [hsend]

/-- Witness for C6: `"alpha off"` in the production oracle `w0` flips the
flag to `false` and sends the "disabled" acknowledgement. -/
theorem C6_control_env_gating_witness :
    dOff.chats = some (⟨"X"⟩ :: []) ∧
    (∀ m, w0.sendTextResult (Chat.mk "X").guid m = none) ∧
    ((normalize dOff.text = "alpha off" →
      handle_new_message w0 true ⟨dOff⟩ =
        (.ok "OK", (if w0.env = "production" then false else true),
         [.sendText (Chat.mk "X").guid "Webhook processing disabled"])) ∧
    (normalize dOff.text = "alpha on" →
      handle_new_message w0 true ⟨dOff⟩ =
        (.ok "OK", (if w0.env = "production" then true else true),
         [.sendText (Chat.mk "X").guid "Webhook processing enabled"]))) :=
  ⟨rfl, fun _ => rfl,
    C6_control_env_gating w0 true dOff ⟨"X"⟩ [] rfl (fun _ => rfl)⟩

/-- The except block leaves `processing_active` untouched. -/
theorem handle_new_message_except_pa (w : World) (g : String) (exc : Exn) (pa : Bool)
    (effs : List Effect) : (handle_new_message_except w g exc pa effs).2.1 = pa := by
  simp only [handle_new_message_except]
  cases w.sendTextResult g ("Sorry, I encountered an error:\n\n" ++ exc) <;> rfl

/-- A non-control `new-message` never changes `processing_active`. -/
theorem handle_new_message_pa_noncontrol (w : World) (pa : Bool) (d : Message)
    (hoff : normalize d.text ≠ "alpha off") (hon : normalize d.text ≠ "alpha on") :
    (handle_new_message w pa ⟨d⟩).2.1 = pa := by
  obtain ⟨dtext, dfm, dchats⟩ := d
  simp only at hoff hon
  match dchats with
  | none => simp [handle_new_message]
  | some [] => simp [handle_new_message]
  | some (chat :: rest) =>
    simp only [handle_new_message, handle_control_message]
    rw [if_neg hoff, if_neg hon]
    cases hm : w.markAsReadResult with
    | error exc => simp [mark_as_read, hm, handle_new_message_except_pa]
    | ok status =>
      simp only [mark_as_read, hm]
      by_cases hc : (decide (normalize dtext = "") || !pa || dfm) = true
      · rw [if_pos hc]
      · rw [if_neg hc]
        cases hgen : generate_reply w dtext with
        | mk r geffs =>
          cases r with
          | error exc => simp [handle_new_message_except_pa]
          | ok message =>
            cases hs : w.sendTextResult chat.guid message <;>
              simp [hs, handle_new_message_except_pa]

/-- While `processing_active` is false, handling any `new-message` that is
not an `"alpha on"` command leaves the flag false and never invokes reply
generation. -/
theorem handle_new_message_inactive (w : World) (d : Message)
    (hon : normalize d.text ≠ "alpha on") :
    (handle_new_message w false ⟨d⟩).2.1 = false ∧
    ∀ e ∈ (handle_new_message w false ⟨d⟩).2.2, e.isGenerate = false := by
  obtain ⟨dtext, dfm, dchats⟩ := d
  simp only at hon
  match dchats with
  | none => simp [handle_new_message, Effect.isGenerate]
  | some [] => simp [handle_new_message, Effect.isGenerate]
  | some (chat :: rest) =>
    by_cases hoff : normalize dtext = "alpha off"
    · simp only [handle_new_message, handle_control_message, hoff]
      simp only [eq_self_iff_true, if_true]
      cases hs : w.sendTextResult chat.guid "Webhook processing disabled" with
      | none => simp [ite_self, List.forall_mem_cons, Effect.isGenerate]
      | some exc =>
        simp only [handle_new_message_except]
        cases hs2 : w.sendTextResult chat.guid ("Sorry, I encountered an error:\n\n" ++ exc) <;>
          simp [ite_self, List.forall_mem_cons, Effect.isGenerate]
    · simp only [handle_new_message, handle_control_message]
      rw [if_neg hoff, if_neg hon]
      cases hm : w.markAsReadResult with
      | error exc =>
        simp only [mark_as_read, hm, handle_new_message_except]
        cases hs2 : w.sendTextResult chat.guid ("Sorry, I encountered an error:\n\n" ++ exc) <;>
          simp [List.forall_mem_cons, Effect.isGenerate]
      | ok status =>
        simp only [mark_as_read, hm]
        have hc : (decide (normalize dtext = "") || !false || dfm) = true := by simp
        rw [if_pos hc]
        simp [List.forall_mem_cons, Effect.isGenerate]

/-- One inactive step: any webhook that is not an `"alpha on"` `new-message`
keeps the flag false and generates no reply. -/
theorem post_webhook_inactive_step (w : World) (p : WebhookPayload)
    (hp : p.isAlphaOn = false) :
    (post_webhook w false p).2.1 = false ∧
    ∀ e ∈ (post_webhook w false p).2.2, e.isGenerate = false := by
  cases p with
  | newMessage d =>
    have hon : normalize d.text ≠ "alpha on" := by
      simpa [WebhookPayload.isAlphaOn] using hp
    exact handle_new_message_inactive w d hon
  | typingIndicator b g => simp [post_webhook]
  | updatedMessage d => simp [post_webhook]
  | chatReadStatusChanged g r => simp [post_webhook]

/-- Inactivity is preserved across any alpha-on-free sequence of webhooks,
and no reply generation ever happens along it. -/
theorem run_inactive (w : World) (es : List WebhookPayload)
    (hes : ∀ p ∈ es, p.isAlphaOn = false) :
    (run w false es).1 = false ∧ ∀ e ∈ (run w false es).2, e.isGenerate = false := by
  induction es with
  | nil => simp [run]
  | cons p ps ih =>
    have hp := hes p (List.mem_cons_self _ _)
    have hps : ∀ q ∈ ps, q.isAlphaOn = false := fun q hq => hes q (List.mem_cons_of_mem _ hq)
    obtain ⟨h1, h2⟩ := post_webhook_inactive_step w p hp
    obtain ⟨h3, h4⟩ := ih hps
    simp only [run]
    rw [h1]
    refine ⟨h3, ?_⟩
    intro e he
    rw [List.mem_append] at he
    rcases he with he | he
    · exact h2 e he
    · exact h4 e he

/-- Handling an `"alpha off"` `new-message` with a chat present in the
production environment leaves `processing_active` false, whatever the
acknowledgement send does. -/
theorem handle_new_message_alpha_off (w : World) (pa : Bool) (d : Message) (chat : Chat)
    (rest : List Chat) (hprod : w.env = "production")
    (htext : normalize d.text = "alpha off") (hchats : d.chats = some (chat :: rest)) :
    (handle_new_message w pa ⟨d⟩).2.1 = false := by
  obtain ⟨dtext, dfm, dchats⟩ := d
  simp only at htext hchats
  subst hchats
  simp only [handle_new_message, handle_control_message, htext]
  simp only [eq_self_iff_true, if_true]
  cases hs : w.sendTextResult chat.guid "Webhook processing disabled" with
  | none => simp [hprod]
  | some exc => simp [hprod, handle_new_message_except_pa]

/-- C7: `processing_active` starts `true`; the dispatcher changes it only
when handling a `new-message` whose normalized text is exactly
`"alpha off"` or `"alpha on"` (no other event kind or handler path writes
it); handling `"alpha off"` in production turns it off; and from the off
state, any sequence of webhooks containing no `"alpha on"` `new-message`
keeps it off and produces no reply (reply generation is never invoked). -/
theorem C7_processing_active_lifecycle :
    WebhookState.mk_default.processing_active = true ∧
    (∀ w pa p, (post_webhook w pa p).2.1 ≠ pa →
      ∃ d, p = WebhookPayload.newMessage d ∧
        (normalize d.text = "alpha off" ∨ normalize d.text = "alpha on")) ∧
    (∀ w pa d chat rest, w.env = "production" → normalize d.text = "alpha off" →
      d.chats = some (chat :: rest) → (handle_new_message w pa ⟨d⟩).2.1 = false) ∧
    (∀ w es, (∀ p ∈ es, WebhookPayload.isAlphaOn p = false) →
      (run w false es).1 = false ∧ ∀ e ∈ (run w false es).2, e.isGenerate = false) := by
  refine ⟨rfl, ?_, ?_, ?_⟩
  · intro w pa p h
    cases p with
    | newMessage d =>
      refine ⟨d, rfl, ?_⟩
      by_contra hc
      push_neg at hc
      exact h (handle_new_message_pa_noncontrol w pa d hc.1 hc.2)
    | typingIndicator b g =>
      exact absurd (by cases pa <;> simp [post_webhook]) h
    | updatedMessage d =>
      exact absurd (by cases pa <;> simp [post_webhook]) h
    | chatReadStatusChanged g r =>
      exact absurd (by cases pa <;> simp [post_webhook]) h
  · intro w pa d chat rest hprod htext hchats
    exact handle_new_message_alpha_off w pa d chat rest hprod htext hchats
  · intro w es hes
    exact run_inactive w es hes

/-- Witness for C7: in the production oracle `w0`, `"alpha off"` turns the
flag off, and a subsequent alpha-on-free sequence (a `"Hello"` message and a
typing indicator) keeps it off with no reply generated. -/
theorem C7_processing_active_lifecycle_witness :
    w0.env = "production" ∧ normalize dOff.text = "alpha off" ∧
    dOff.chats = some (⟨"X"⟩ :: []) ∧
    (handle_new_message w0 true ⟨dOff⟩).2.1 = false ∧
    (∀ p ∈ [WebhookPayload.newMessage dHello, WebhookPayload.typingIndicator true "X"],
      WebhookPayload.isAlphaOn p = false) ∧
    ((run w0 false [WebhookPayload.newMessage dHello,
        WebhookPayload.typingIndicator true "X"]).1 = false ∧
     ∀ e ∈ (run w0 false [WebhookPayload.newMessage dHello,
        WebhookPayload.typingIndicator true "X"]).2, e.isGenerate = false) :=
  ⟨rfl, by decide, rfl,
    C7_processing_active_lifecycle.2.2.1 w0 true dOff ⟨"X"⟩ [] rfl (by decide) rfl,
    by decide,
    C7_processing_active_lifecycle.2.2.2 w0
      [WebhookPayload.newMessage dHello, WebhookPayload.typingIndicator true "X"]
      (by decide)⟩

/-- C8: each passive webhook kind (`typing-indicator`, `updated-message`,
`chat-read-status-changed`) produces exactly one observability log record
when `processing_active` is true and nothing at all when it is false; it
performs no outbound call, leaves the flag unchanged, and always returns
`"OK"`. -/
theorem C8_passive_events (w : World) (pa : Bool) (p : WebhookPayload)
    (hp : p.isPassive = true) :
    post_webhook w pa p =
      (.ok "OK", pa,
       if pa then
        [Effect.logInfo (match p with
          | .typingIndicator _ _ => "Typing indicator"
          | .updatedMessage _ => "Updated message"
          | _ => "Chat read status changed")]
       else []) ∧
    ∀ e ∈ (post_webhook w pa p).2.2, e.isOutbound = false := by
  cases p with
  | newMessage d => simp [WebhookPayload.isPassive] at hp
  | typingIndicator b g => cases pa <;> simp [post_webhook, Effect.isOutbound]
  | updatedMessage d => cases pa <;> simp [post_webhook, Effect.isOutbound]
  | chatReadStatusChanged g r => cases pa <;> simp [post_webhook, Effect.isOutbound]

/-- Witness for C8: a typing indicator while processing is inactive produces
no record and no outbound call. -/
theorem C8_passive_events_witness :
    (WebhookPayload.typingIndicator true "X").isPassive = true ∧
    (post_webhook w0 false (.typingIndicator true "X") =
      (.ok "OK", false,
       if false then
        [Effect.logInfo (match WebhookPayload.typingIndicator true "X" with
          | .typingIndicator _ _ => "Typing indicator"
          | .updatedMessage _ => "Updated message"
          | _ => "Chat read status changed")]
       else []) ∧
    ∀ e ∈ (post_webhook w0 false (.typingIndicator true "X")).2.2, e.isOutbound = false) :=
  ⟨rfl, C8_passive_events w0 false (.typingIndicator true "X") rfl⟩

/-- `generate_reply` never reads the mark-as-read outcome. -/
theorem generate_reply_update_mark (w : World) (r : Except Exn Nat) (m : String) :
    generate_reply { w with markAsReadResult := r } m = generate_reply w m := by
  simp [generate_reply, system_prompt]

/-- The except block never reads the mark-as-read outcome. -/
theorem handle_new_message_except_update_mark (w : World) (r : Except Exn Nat) (g : String)
    (exc : Exn) (pa : Bool) (effs : List Effect) :
    handle_new_message_except { w with markAsReadResult := r } g exc pa effs =
      handle_new_message_except w g exc pa effs := by
  simp [handle_new_message_except]

/-- C9 counterexample: when the mark-as-read post raises (here
`"connect timeout"`) on the spec scenario payload, the rest of the handler
does *not* run as if it had succeeded: reply generation is never invoked, the
handler does not return `"OK"`, and instead the apology path runs and the
exception escapes. -/
theorem C9_counterexample :
    (handle_new_message wMarkFail true payloadHello).1 = .error "connect timeout" ∧
    (handle_new_message wMarkFail true payloadHello).1 ≠ .ok "OK" ∧
    ((handle_new_message wMarkFail true payloadHello).2.2.all fun e => !e.isGenerate) = true ∧
    Effect.sendText "X" ("Sorry, I encountered an error:\n\nconnect timeout") ∈
      (handle_new_message wMarkFail true payloadHello).2.2 := by decide

/-- C9 (amended): mark-as-read is best-effort only with respect to the HTTP
response: no status is ever checked, so the handler behaves identically
whatever status code the post returns.  But a mark-as-read call that
*raises* is not swallowed: the handler takes the same failure path as the
reply path — the apology send is attempted and the exception escapes. -/
theorem C9_amended_mark_as_read (w : World) (pa : Bool) (d : Message) (chat : Chat)
    (rest : List Chat)
    (hchats : d.chats = some (chat :: rest))
    (hoff : normalize d.text ≠ "alpha off") (hon : normalize d.text ≠ "alpha on") :
    (∀ s1 s2 : Nat,
      handle_new_message { w with markAsReadResult := .ok s1 } pa ⟨d⟩ =
        handle_new_message { w with markAsReadResult := .ok s2 } pa ⟨d⟩) ∧
    (∀ exc : Exn, w.markAsReadResult = .error exc →
      handle_new_message w pa ⟨d⟩ =
        handle_new_message_except w chat.guid exc pa [.markAsRead chat.guid] ∧
      Effect.sendText chat.guid ("Sorry, I encountered an error:\n\n" ++ exc) ∈
        (handle_new_message w pa ⟨d⟩).2.2 ∧
      ∃ exc2, (handle_new_message w pa ⟨d⟩).1 = .error exc2) := by
  obtain ⟨dtext, dfm, dchats⟩ := d
  simp only at hchats hoff hon ⊢
  subst hchats
  constructor
  · intro s1 s2
    simp only [handle_new_message, handle_control_message, mark_as_read]
    rw [if_neg hoff, if_neg hon]
    simp only [generate_reply_update_mark, handle_new_message_except_update_mark]
  · intro exc hmark
    have heq : handle_new_message w pa ⟨⟨dtext, dfm, some (chat :: rest)⟩⟩ =
        handle_new_message_except w chat.guid exc pa [.markAsRead chat.guid] := by
      simp only [handle_new_message, handle_control_message, mark_as_read, hmark]
      rw [if_neg hoff, if_neg hon]
      simp
    refine ⟨heq, ?_, ?_⟩ <;> rw [heq] <;> simp only [handle_new_message_except] <;>
      cases hs : w.sendTextResult chat.guid ("Sorry, I encountered an error:\n\n" ++ exc) <;>
      simp

/-- Witness for the amended C9 at the `"Hello"` payload: any two statuses
give the same behavior, and the raising oracle `wMarkFail` takes the failure
path. -/
theorem C9_amended_mark_as_read_witness :
    dHello.chats = some (⟨"X"⟩ :: []) ∧
    normalize dHello.text ≠ "alpha off" ∧ normalize dHello.text ≠ "alpha on" ∧
    ((∀ s1 s2 : Nat,
      handle_new_message { wMarkFail with markAsReadResult := .ok s1 } true ⟨dHello⟩ =
        handle_new_message { wMarkFail with markAsReadResult := .ok s2 } true ⟨dHello⟩) ∧
    (∀ exc : Exn, wMarkFail.markAsReadResult = .error exc →
      handle_new_message wMarkFail true ⟨dHello⟩ =
        handle_new_message_except wMarkFail (Chat.mk "X").guid exc true
          [.markAsRead (Chat.mk "X").guid] ∧
      Effect.sendText (Chat.mk "X").guid ("Sorry, I encountered an error:\n\n" ++ exc) ∈
        (handle_new_message wMarkFail true ⟨dHello⟩).2.2 ∧
      ∃ exc2, (handle_new_message wMarkFail true ⟨dHello⟩).1 = .error exc2)) :=
  ⟨rfl, by decide, by decide,
    C9_amended_mark_as_read wMarkFail true dHello ⟨"X"⟩ [] rfl (by decide) (by decide)⟩

/-- C10 counterexample: a whitespace-only Gemini response text (`" "`) passes
the `if not text` check, is stripped to the empty string, and is returned by
`generate_reply` — and the handler then sends that empty reply to the chat
and returns `"OK"`.  So an empty generated reply *can* be sent. -/
theorem C10_counterexample :
    (generate_reply wBlankGem "Hello").1 = .ok "" ∧
    Effect.sendText "X" "" ∈ (handle_new_message wBlankGem true payloadHello).2.2 ∧
    (handle_new_message wBlankGem true payloadHello).1 = .ok "OK" := by decide

/-- C10 (amended): when the Gemini response text is missing (`None`) or
exactly empty (`""`), `generate_reply` raises
`"No text returned from Gemini"` instead of returning it, and for the
handler this is indistinguishable from any other reply-path failure: the
apology path runs, no empty reply is sent, and the exception escapes.
(A *whitespace-only* response text, by contrast, is stripped to the empty
string and sent — see the counterexample.) -/
theorem C10_amended_empty_gemini_text (w : World) (d : Message) (chat : Chat)
    (rest : List Chat) (status : Nat)
    (hchats : d.chats = some (chat :: rest))
    (hoff : normalize d.text ≠ "alpha off") (hon : normalize d.text ≠ "alpha on")
    (hmark : w.markAsReadResult = .ok status)
    (hne : normalize d.text ≠ "") (hfm : d.is_from_me = false)
    (hgem : w.geminiText = .ok none ∨ w.geminiText = .ok (some "")) :
    (generate_reply w d.text).1 = .error "No text returned from Gemini" ∧
    handle_new_message w true ⟨d⟩ =
      handle_new_message_except w chat.guid "No text returned from Gemini" true
        [.markAsRead chat.guid, .logInfo "Chat marked as read",
         .generate (system_prompt w) d.text] ∧
    Effect.sendText chat.guid "" ∉ (handle_new_message w true ⟨d⟩).2.2 ∧
    ∃ exc2, (handle_new_message w true ⟨d⟩).1 = .error exc2 := by
  have hgr : generate_reply w d.text =
      (.error "No text returned from Gemini", [.generate (system_prompt w) d.text]) := by
    rcases hgem with h | h <;> simp [generate_reply, h]
  have heq : handle_new_message w true ⟨d⟩ =
      handle_new_message_except w chat.guid "No text returned from Gemini" true
        [.markAsRead chat.guid, .logInfo "Chat marked as read",
         .generate (system_prompt w) d.text] := by
    rw [handle_new_message_replypath w d chat rest status hchats hoff hon hmark hne hfm, hgr]
    simp
  have hapology : ("Sorry, I encountered an error:\n\n" ++ "No text returned from Gemini"
      : String) ≠ "" := by decide
  refine ⟨by rw [hgr], heq, ?_, ?_⟩ <;> rw [heq] <;> simp only [handle_new_message_except] <;>
    cases hs : w.sendTextResult chat.guid
        ("Sorry, I encountered an error:\n\n" ++ "No text returned from Gemini") <;>
    simp [hapology]

/-- Witness for the amended C10: Gemini returns an empty text on the
`"Hello"` payload; `generate_reply` raises and the handler takes the
failure path. -/
theorem C10_amended_empty_gemini_text_witness :
    dHello.chats = some (⟨"X"⟩ :: []) ∧
    normalize dHello.text ≠ "alpha off" ∧ normalize dHello.text ≠ "alpha on" ∧
    { w0 with geminiText := .ok (some "") }.markAsReadResult = .ok 200 ∧
    normalize dHello.text ≠ "" ∧ dHello.is_from_me = false ∧
    ({ w0 with geminiText := .ok (some "") }.geminiText = .ok none ∨
      { w0 with geminiText := .ok (some "") }.geminiText = .ok (some "")) ∧
    ((generate_reply { w0 with geminiText := .ok (some "") } dHello.text).1 =
        .error "No text returned from Gemini" ∧
    handle_new_message { w0 with geminiText := .ok (some "") } true ⟨dHello⟩ =
      handle_new_message_except { w0 with geminiText := .ok (some "") } (Chat.mk "X").guid
        "No text returned from Gemini" true
        [.markAsRead (Chat.mk "X").guid, .logInfo "Chat marked as read",
         .generate (system_prompt { w0 with geminiText := .ok (some "") }) dHello.text] ∧
    Effect.sendText (Chat.mk "X").guid "" ∉
      (handle_new_message { w0 with geminiText := .ok (some "") } true ⟨dHello⟩).2.2 ∧
    ∃ exc2, (handle_new_message { w0 with geminiText := .ok (some "") } true ⟨dHello⟩).1 =
      .error exc2) :=
  ⟨rfl, by decide, by decide, rfl, by decide, rfl, Or.inr rfl,
    C10_amended_empty_gemini_text { w0 with geminiText := .ok (some "") } dHello ⟨"X"⟩ [] 200
      rfl (by decide) (by decide) rfl (by decide) rfl (Or.inr rfl)⟩

end Alpha
